import Mathlib

/-!
Verification of the flight-ingestor alerting engine (`src/main.go`).

The Go program polls an ADS-B feed, evaluates each aircraft snapshot against
a prioritized set of alert triggers (watchlist, emergency squawk, military
flag, proximity geofence), maintains per-aircraft latch state, reaps stale
state, refreshes a watchlist from a CSV source, and normalizes remote
enrichment payloads.

This file shallowly embeds the pure decision logic of the program.  I/O
(HTTP fetches, Discord posts) is dropped; the decision of *which* alert to
emit and *how* the state is updated is kept exactly.  Floating-point
operations that are not exactly translatable (the haversine trigonometry,
`strconv.ParseFloat`, and `fmt.Sprintf("%.0f", ·)`) are abstracted as
parameters of an `Ops` record; every claim below quantifies over them, so
nothing depends on their concrete values beyond what the source's control
flow does.  Timestamps are modelled as natural numbers measured in minutes,
with `0` playing the role of Go's zero `time.Time`.
-/

namespace FlightIngestor

/-- A decoded JSON value for the `any`-typed fields of the feed
(`alt_baro`, `lat`, `lon`, `lastPosition.lat`, `lastPosition.lon`):
a JSON number, a JSON string, or anything else. -/
inductive JsonVal where
  | num (q : ℚ)
  | str (s : String)
  | other
deriving DecidableEq

/-- The floating-point primitives of the Go runtime that the alerting logic
calls: `strconv.ParseFloat` (`parse`, `none` on error), `fmt.Sprintf("%.0f", ·)`
(`fmt0`), and the `haversine` great-circle distance of `src/main.go` lines
333-340 (float trigonometry, abstracted). -/
structure Ops where
  parse : String → Option ℚ
  fmt0 : ℚ → String
  haversine : ℚ → ℚ → ℚ → ℚ → ℚ

/-- `parseFloat` of `src/main.go` lines 635-651: a float passes through,
a string is parsed (`0` on error), anything else is `0`. -/
def parseFloat (ops : Ops) : JsonVal → ℚ
  | .num q => q
  | .str s => (ops.parse s).getD 0
  | .other => 0

/-- `formatAltitudeString` of `src/main.go` lines 625-634. -/
def formatAltitudeString (ops : Ops) : JsonVal → String
  | .num q => ops.fmt0 q
  | .str s => s
  | .other => "N/A"

/-- One aircraft snapshot from the feed (`Aircraft` struct, lines 52-69). -/
structure Aircraft where
  hex : String := ""
  flight : String := ""
  nNumber : String := ""
  type : String := ""
  squawk : String := ""
  mil : Bool := false
  altBaro : JsonVal := .other
  gs : ℚ := 0
  lat : JsonVal := .other
  lon : JsonVal := .other
  lastPosLat : JsonVal := .other
  lastPosLon : JsonVal := .other
deriving DecidableEq

/-- `WatchlistEntry` struct, lines 97-102. -/
structure WatchlistEntry where
  icao : String := ""
  registration : String := ""
  note : String := ""
  planeType : String := ""
deriving DecidableEq

/-- `RadiusAircraftState`, lines 130-136.  All-default is Go's zero value. -/
structure RadiusAircraftState where
  lastSquawk : String := ""
  milAlerted : Bool := false
  watchlistAlerted : Bool := false
  proximityAlerted : Bool := false
  lastSeen : ℕ := 0
deriving DecidableEq

/-- The configuration constants of lines 24-31. -/
def apiLat : ℚ := 35740971 / 1000000
def apiLng : ℚ := -78498878 / 1000000
def proximityRadiusNM : ℚ := 5
def proximityAltitudeFT : ℚ := 2000
/-- The reaper TTL, 30 minutes (line 428). -/
def stateTTL : ℕ := 30

/-- `getActualCoords`, lines 603-624: the primary pair is used when both
components are non-zero, otherwise the `lastPosition` pair, otherwise no fix. -/
def getActualCoords (ops : Ops) (ac : Aircraft) : ℚ × ℚ × Bool :=
  let lat := parseFloat ops ac.lat
  let lon := parseFloat ops ac.lon
  if lat ≠ 0 ∧ lon ≠ 0 then
    (lat, lon, true)
  else
    let lat := parseFloat ops ac.lastPosLat
    let lon := parseFloat ops ac.lastPosLon
    if lat ≠ 0 ∧ lon ≠ 0 then
      (lat, lon, true)
    else
      (0, 0, false)

/-- The four alert kinds of the radius poller (the `alertType` strings
passed to `sendDiscordAlert`). -/
inductive AlertType where
  | watchlist
  | emergency
  | military
  | proximity
deriving DecidableEq

/-- One emitted alert: the kind, the triggering snapshot, and the watchlist
entry when the watchlist trigger fired (the arguments of `sendDiscordAlert`
that the decision logic determines). -/
structure AlertRecord where
  kind : AlertType
  ac : Aircraft
  entry : Option WatchlistEntry
deriving DecidableEq

/-- The per-identifier alert-state store (`globalRadiusState`, line 138). -/
def RadiusState : Type := String → Option RadiusAircraftState

/-- `globalRadiusState[hex] = st` as a map write. -/
def updateState (s : RadiusState) (hex : String) (st : RadiusAircraftState) :
    RadiusState :=
  fun h => if h = hex then some st else s h

/-- The emergency-squawk test of line 347. -/
def isEmergencySquawk (sq : String) : Bool :=
  sq == "7700" || sq == "7600" || sq == "7500"

/-- `processRadiusAlerts`, lines 343-426: the rule evaluator.  Takes the
abstracted float ops, the current watchlist map, the state store, the
current time and one snapshot; returns the emitted alert (if any) and the
updated store. -/
def processRadiusAlerts (ops : Ops) (wl : String → Option WatchlistEntry)
    (s : RadiusState) (now : ℕ) (ac : Aircraft) :
    Option AlertRecord × RadiusState :=
  let hex := ac.hex
  let squawk := ac.squawk
  let seen := (s hex).isSome
  let currentState := (s hex).getD {}
  let c := getActualCoords ops ac
  match wl hex with
  | some entry =>
    -- Trigger 1: watchlist hit
    if !seen || !currentState.watchlistAlerted then
      (some ⟨.watchlist, ac, some entry⟩,
       updateState s hex
         { currentState with
             watchlistAlerted := true, lastSquawk := squawk, lastSeen := now })
    else
      (none, updateState s hex
        { currentState with lastSquawk := squawk, lastSeen := now })
  | none =>
    if isEmergencySquawk squawk then
      -- Trigger 2: emergency squawk
      if !seen || currentState.lastSquawk != squawk then
        (some ⟨.emergency, ac, none⟩,
         updateState s hex
           { currentState with lastSquawk := squawk, lastSeen := now })
      else
        (none, updateState s hex
          { currentState with lastSquawk := squawk, lastSeen := now })
    else if ac.mil then
      -- Trigger 3: military aircraft
      if !seen || !currentState.milAlerted then
        (some ⟨.military, ac, none⟩,
         updateState s hex
           { currentState with
               milAlerted := true, lastSquawk := squawk, lastSeen := now })
      else
        (none, updateState s hex
          { currentState with lastSquawk := squawk, lastSeen := now })
    else
      -- Trigger 4: proximity "overhead" alert
      let r : Option AlertRecord × RadiusAircraftState :=
        if c.2.2 then
          if ops.haversine apiLat apiLng c.1 c.2.1 ≤ proximityRadiusNM then
            match ops.parse (formatAltitudeString ops ac.altBaro) with
            | some altitudeFT =>
              if 0 < altitudeFT ∧ altitudeFT ≤ proximityAltitudeFT then
                if !seen || !currentState.proximityAlerted then
                  (some ⟨.proximity, ac, none⟩,
                   { currentState with proximityAlerted := true })
                else
                  (none, currentState)
              else
                (none, { currentState with proximityAlerted := false })
            | none => (none, { currentState with proximityAlerted := false })
          else
            (none, { currentState with proximityAlerted := false })
        else
          (none, { currentState with proximityAlerted := false })
      (r.1, updateState s hex
        { r.2 with lastSquawk := squawk, lastSeen := now })

/-- `cleanupRadiusState`, lines 427-445: entries with a zero last-seen are
replaced by a fresh zero state stamped `now`; entries last seen before
`now - 30min` are deleted; the rest are kept. -/
def cleanupRadiusState (now : ℕ) (s : RadiusState) : RadiusState :=
  fun hex =>
    match s hex with
    | none => none
    | some state =>
      if state.lastSeen = 0 then
        some { lastSeen := now }
      else if state.lastSeen < now - stateTTL then
        none
      else
        some state

/-- One row of the watchlist CSV turned into an entry (lines 188-193):
identifier at offset 0, registration at offset 1, type at offset 4,
note at offset 6. -/
def watchlistRow (row : List String) : WatchlistEntry :=
  { icao := row.getD 0 ""
    registration := row.getD 1 ""
    planeType := row.getD 4 ""
    note := row.getD 6 "" }

/-- `newWatchlist[entry.ICAO] = entry` (line 194). -/
def insertWatchlist (m : String → Option WatchlistEntry)
    (e : WatchlistEntry) : String → Option WatchlistEntry :=
  fun h => if h = e.icao then some e else m h

/-- The row loop of `loadWatchlistFromCSV` (lines 182-196): skip the header
row (index 0), keep only rows with more than 6 fields, key each kept row by
its identifier.  The argument is the decoded CSV record list. -/
def loadWatchlistFromCSV (records : List (List String)) :
    String → Option WatchlistEntry :=
  (records.drop 1).foldl
    (fun m row => if 6 < row.length then insertWatchlist m (watchlistRow row) else m)
    (fun _ => none)

/-- The nested "commercial" shape of the adsbdb response (lines 83-90). -/
structure AdsbDbAircraftShape where
  type : String := ""
  registration : String := ""
  owner : String := ""
  airlineFlag : String := ""
  thumbnailURL : String := ""
  fullImageURL : String := ""
deriving DecidableEq

/-- `AdsbDbApiResponse.Response` (lines 80-96): the nested shape plus the
flat "military" fields.  Absent JSON fields decode to `""`. -/
structure AdsbDbApiResponse where
  aircraft : AdsbDbAircraftShape := {}
  type_flat : String := ""
  registration_flat : String := ""
  owner_flat : String := ""
deriving DecidableEq

/-- `AircraftDetail` (lines 70-79). -/
structure AircraftDetail where
  hex : String := ""
  registration : String := ""
  airline : String := ""
  owner : String := ""
  aircraftType : String := ""
  note : String := ""
  thumbnailURL : String := ""
  fullImageURL : String := ""
deriving DecidableEq

/-- The payload-normalization step of `getAircraftDetails` (lines 469-492):
given the identifier and the decoded remote payload, produce the detail
record.  The HTTP fetch and JSON decode around it are dropped. -/
def getAircraftDetails (hex : String) (resp : AdsbDbApiResponse) :
    AircraftDetail :=
  let base : AircraftDetail := { hex := hex }
  if resp.aircraft.registration ≠ "" then
    -- Path 1: commercial (nested)
    { base with
        registration := resp.aircraft.registration
        aircraftType := resp.aircraft.type
        owner := resp.aircraft.owner
        thumbnailURL := resp.aircraft.thumbnailURL
        fullImageURL := resp.aircraft.fullImageURL
        airline :=
          if resp.aircraft.airlineFlag ≠ "" then resp.aircraft.airlineFlag
          else resp.aircraft.owner }
  else if resp.registration_flat ≠ "" then
    -- Path 2: military (flat); no images/airline for this path
    { base with
        registration := resp.registration_flat
        aircraftType := resp.type_flat
        owner := resp.owner_flat }
  else
    base

/-- Normalization as claim C6 words it: the nested shape exactly when its
registration is non-empty, else the flat shape's registration/type/owner,
with airline = operator-flag when non-empty and the owner field otherwise
in either path, and unresolved fields empty. -/
def getAircraftDetailsClaimC6 (hex : String) (resp : AdsbDbApiResponse) :
    AircraftDetail :=
  let base : AircraftDetail := { hex := hex }
  if resp.aircraft.registration ≠ "" then
    { base with
        registration := resp.aircraft.registration
        aircraftType := resp.aircraft.type
        owner := resp.aircraft.owner
        thumbnailURL := resp.aircraft.thumbnailURL
        fullImageURL := resp.aircraft.fullImageURL
        airline :=
          if resp.aircraft.airlineFlag ≠ "" then resp.aircraft.airlineFlag
          else resp.aircraft.owner }
  else if resp.registration_flat ≠ "" then
    { base with
        registration := resp.registration_flat
        aircraftType := resp.type_flat
        owner := resp.owner_flat
        airline :=
          if resp.aircraft.airlineFlag ≠ "" then resp.aircraft.airlineFlag
          else resp.owner_flat }
  else
    base

/-- The watchlist latch of an identifier as the claims read it: a missing
AlertState counts as the latch not set. -/
def watchLatch (s : RadiusState) (hex : String) : Bool :=
  match s hex with
  | some st => st.watchlistAlerted
  | none => false

/-- The military/special latch, missing state counting as not set. -/
def milLatch (s : RadiusState) (hex : String) : Bool :=
  match s hex with
  | some st => st.milAlerted
  | none => false

/-- The proximity latch, missing state counting as not set. -/
def proxLatch (s : RadiusState) (hex : String) : Bool :=
  match s hex with
  | some st => st.proximityAlerted
  | none => false

/-- One poll-cycle input to the evaluator: the watchlist in force, the
current time and the snapshot. -/
structure PollInput where
  wl : String → Option WatchlistEntry
  now : ℕ
  ac : Aircraft

/-- Run the evaluator over a sequence of snapshots (the per-aircraft loop
of `mainRadiusLoop`, without the reaper), collecting every emitted alert. -/
def runRadius (ops : Ops) (s : RadiusState) : List PollInput → List AlertRecord
  | [] => []
  | i :: rest =>
    let r := processRadiusAlerts ops i.wl s i.now i.ac
    r.1.toList ++ runRadius ops r.2 rest

/-- The emergency-trigger firing condition of line 370: never seen, or the
recorded last-observed code differs from the current one. -/
def squawkChanged (s : RadiusState) (hex sq : String) : Bool :=
  match s hex with
  | some st => st.lastSquawk != sq
  | none => true

/-- The proximity band test of lines 397-405 as one boolean: a resolved
position, within the configured radius of the home point, and an altitude
that parses to a value in `(0, proximityAltitudeFT]`. -/
def inBand (ops : Ops) (ac : Aircraft) : Bool :=
  (getActualCoords ops ac).2.2 &&
  decide (ops.haversine apiLat apiLng (getActualCoords ops ac).1
      (getActualCoords ops ac).2.1 ≤ proximityRadiusNM) &&
  (match ops.parse (formatAltitudeString ops ac.altBaro) with
   | some a => decide (0 < a ∧ a ≤ proximityAltitudeFT)
   | none => false)

section BranchLemmas

variable (ops : Ops) (wl : String → Option WatchlistEntry) (s : RadiusState)
  (now : ℕ) (ac : Aircraft)

/-- The watchlist-hit firing test of line 356 equals the negated latch. -/
lemma watch_fire_eq (hex : String) :
    (!(s hex).isSome || !((s hex).getD {}).watchlistAlerted) =
      !watchLatch s hex := by
  unfold watchLatch
  cases s hex <;> simp

/-- The military firing test of line 383 equals the negated latch. -/
lemma mil_fire_eq (hex : String) :
    (!(s hex).isSome || !((s hex).getD {}).milAlerted) = !milLatch s hex := by
  unfold milLatch
  cases s hex <;> simp

/-- The proximity firing test of line 406 equals the negated latch. -/
lemma prox_fire_eq (hex : String) :
    (!(s hex).isSome || !((s hex).getD {}).proximityAlerted) =
      !proxLatch s hex := by
  unfold proxLatch
  cases s hex <;> simp

/-- The emergency firing test of line 370 equals `squawkChanged`. -/
lemma emergency_fire_eq (hex sq : String) :
    (!(s hex).isSome || ((s hex).getD {}).lastSquawk != sq) =
      squawkChanged s hex sq := by
  unfold squawkChanged
  cases s hex <;> simp

/-- Trigger 1 characterized: on a watchlisted identifier the evaluator
alerts exactly when the watchlist latch is not set, and sets it. -/
lemma processRadiusAlerts_watchlist (entry : WatchlistEntry)
    (h : wl ac.hex = some entry) :
    processRadiusAlerts ops wl s now ac =
      (if watchLatch s ac.hex then none
       else some ⟨.watchlist, ac, some entry⟩,
       updateState s ac.hex
         { (s ac.hex).getD {} with
             watchlistAlerted := true, lastSquawk := ac.squawk,
             lastSeen := now }) := by
  simp only [processRadiusAlerts]
  rw [h]
  simp only [watch_fire_eq]
  cases hw : watchLatch s ac.hex
  · simp
  · have : ((s ac.hex).getD {}).watchlistAlerted = true := by
      unfold watchLatch at hw
      cases hs : s ac.hex <;> simp [hs] at hw ⊢ <;> simp [hw]
    simp [this]

/-- Trigger 2 characterized: off the watchlist with a reserved emergency
code, the evaluator alerts exactly when the code changed. -/
lemma processRadiusAlerts_emergency
    (h1 : wl ac.hex = none) (h2 : isEmergencySquawk ac.squawk = true) :
    processRadiusAlerts ops wl s now ac =
      (if squawkChanged s ac.hex ac.squawk then some ⟨.emergency, ac, none⟩
       else none,
       updateState s ac.hex
         { (s ac.hex).getD {} with
             lastSquawk := ac.squawk, lastSeen := now }) := by
  simp only [processRadiusAlerts]
  rw [h1]
  simp only [h2, emergency_fire_eq]
  cases squawkChanged s ac.hex ac.squawk <;> simp

/-- Trigger 3 characterized: off the watchlist, non-emergency, military
flag set — the evaluator alerts exactly when the military latch is not
set, and sets it. -/
lemma processRadiusAlerts_military
    (h1 : wl ac.hex = none) (h2 : isEmergencySquawk ac.squawk = false)
    (h3 : ac.mil = true) :
    processRadiusAlerts ops wl s now ac =
      (if milLatch s ac.hex then none else some ⟨.military, ac, none⟩,
       updateState s ac.hex
         { (s ac.hex).getD {} with
             milAlerted := true, lastSquawk := ac.squawk,
             lastSeen := now }) := by
  simp only [processRadiusAlerts]
  rw [h1]
  simp only [h2, h3, mil_fire_eq, Bool.false_eq_true, if_false, if_true]
  cases hm : milLatch s ac.hex
  · simp
  · have : ((s ac.hex).getD {}).milAlerted = true := by
      unfold milLatch at hm
      cases hs : s ac.hex <;> simp [hs] at hm ⊢ <;> simp [hm]
    simp [this]

/-- Trigger 4 characterized: off the watchlist, non-emergency, non-military
— the evaluator alerts exactly when the snapshot is in the proximity band
and the proximity latch is not set, and the new latch value is exactly the
band test (set while inside, cleared on any exit or failed altitude test). -/
lemma processRadiusAlerts_proximity
    (h1 : wl ac.hex = none) (h2 : isEmergencySquawk ac.squawk = false)
    (h3 : ac.mil = false) :
    processRadiusAlerts ops wl s now ac =
      (if inBand ops ac && !proxLatch s ac.hex then some ⟨.proximity, ac, none⟩
       else none,
       updateState s ac.hex
         { (s ac.hex).getD {} with
             proximityAlerted := inBand ops ac, lastSquawk := ac.squawk,
             lastSeen := now }) := by
  simp only [processRadiusAlerts]
  rw [h1]
  simp only [h2, h3, Bool.false_eq_true, if_false]
  unfold inBand
  rcases hc : getActualCoords ops ac with ⟨lat, lon, fix⟩
  cases fix
  · simp
  · simp only [Bool.true_and]
    by_cases hd : ops.haversine apiLat apiLng lat lon ≤ proximityRadiusNM
    · simp only [if_pos hd, decide_eq_true hd, Bool.true_and]
      cases hp : ops.parse (formatAltitudeString ops ac.altBaro) with
      | none => simp
      | some a =>
        by_cases hb : 0 < a ∧ a ≤ proximityAltitudeFT
        · simp only [if_pos hb, decide_eq_true hb, Bool.true_and, prox_fire_eq]
          cases hl : proxLatch s ac.hex
          · simp
          · have : ((s ac.hex).getD {}).proximityAlerted = true := by
              unfold proxLatch at hl
              cases hs : s ac.hex <;> simp [hs] at hl ⊢ <;> simp [hl]
            simp [this]
        · simp [hb]
    · simp [hd]

/-- Case analysis over the four trigger branches of the evaluator. -/
lemma processRadiusAlerts_elim (P : Option AlertRecord × RadiusState → Prop)
    (h₁ : ∀ entry, wl ac.hex = some entry →
      P (if watchLatch s ac.hex then none else some ⟨.watchlist, ac, some entry⟩,
         updateState s ac.hex
           { (s ac.hex).getD {} with
               watchlistAlerted := true, lastSquawk := ac.squawk,
               lastSeen := now }))
    (h₂ : wl ac.hex = none → isEmergencySquawk ac.squawk = true →
      P (if squawkChanged s ac.hex ac.squawk then some ⟨.emergency, ac, none⟩
         else none,
         updateState s ac.hex
           { (s ac.hex).getD {} with
               lastSquawk := ac.squawk, lastSeen := now }))
    (h₃ : wl ac.hex = none → isEmergencySquawk ac.squawk = false →
        ac.mil = true →
      P (if milLatch s ac.hex then none else some ⟨.military, ac, none⟩,
         updateState s ac.hex
           { (s ac.hex).getD {} with
               milAlerted := true, lastSquawk := ac.squawk, lastSeen := now }))
    (h₄ : wl ac.hex = none → isEmergencySquawk ac.squawk = false →
        ac.mil = false →
      P (if inBand ops ac && !proxLatch s ac.hex then
           some ⟨.proximity, ac, none⟩
         else none,
         updateState s ac.hex
           { (s ac.hex).getD {} with
               proximityAlerted := inBand ops ac, lastSquawk := ac.squawk,
               lastSeen := now })) :
    P (processRadiusAlerts ops wl s now ac) := by
  cases hw : wl ac.hex with
  | some entry =>
    rw [processRadiusAlerts_watchlist ops wl s now ac entry hw]
    exact h₁ entry hw
  | none =>
    cases he : isEmergencySquawk ac.squawk with
    | true =>
      rw [processRadiusAlerts_emergency ops wl s now ac hw he]
      exact h₂ hw he
    | false =>
      cases hm : ac.mil with
      | true =>
        rw [processRadiusAlerts_military ops wl s now ac hw he hm]
        exact h₃ hw he hm
      | false =>
        rw [processRadiusAlerts_proximity ops wl s now ac hw he hm]
        exact h₄ hw he hm

end BranchLemmas

/-- The watchlist latch equals the Go-style read through the zero value. -/
lemma watchLatch_getD (s : RadiusState) (hex : String) :
    watchLatch s hex = ((s hex).getD {}).watchlistAlerted := by
  unfold watchLatch
  cases s hex <;> rfl

/-- The military latch equals the Go-style read through the zero value. -/
lemma milLatch_getD (s : RadiusState) (hex : String) :
    milLatch s hex = ((s hex).getD {}).milAlerted := by
  unfold milLatch
  cases s hex <;> rfl

/-- The proximity latch equals the Go-style read through the zero value. -/
lemma proxLatch_getD (s : RadiusState) (hex : String) :
    proxLatch s hex = ((s hex).getD {}).proximityAlerted := by
  unfold proxLatch
  cases s hex <;> rfl

/-- Reading the watchlist latch through a map write. -/
lemma watchLatch_update (s : RadiusState) (hex : String)
    (st : RadiusAircraftState) (id : String) :
    watchLatch (updateState s hex st) id =
      if id = hex then st.watchlistAlerted else watchLatch s id := by
  unfold watchLatch updateState
  by_cases h : id = hex <;> simp [h]

/-- Reading the military latch through a map write. -/
lemma milLatch_update (s : RadiusState) (hex : String)
    (st : RadiusAircraftState) (id : String) :
    milLatch (updateState s hex st) id =
      if id = hex then st.milAlerted else milLatch s id := by
  unfold milLatch updateState
  by_cases h : id = hex <;> simp [h]

/-- Reading the proximity latch through a map write. -/
lemma proxLatch_update (s : RadiusState) (hex : String)
    (st : RadiusAircraftState) (id : String) :
    proxLatch (updateState s hex st) id =
      if id = hex then st.proximityAlerted else proxLatch s id := by
  unfold proxLatch updateState
  by_cases h : id = hex <;> simp [h]

/-- The evaluator never clears a set watchlist latch, of any identifier. -/
lemma watchLatch_mono (ops : Ops) (wl : String → Option WatchlistEntry)
    (s : RadiusState) (now : ℕ) (ac : Aircraft) (id : String)
    (h : watchLatch s id = true) :
    watchLatch (processRadiusAlerts ops wl s now ac).2 id = true := by
  refine processRadiusAlerts_elim ops wl s now ac
    (fun p => watchLatch p.2 id = true) ?_ ?_ ?_ ?_ <;>
    intros <;>
    simp only [watchLatch_update] <;>
    split <;>
    simp_all [watchLatch_getD]

/-- The evaluator never clears a set military latch, of any identifier. -/
lemma milLatch_mono (ops : Ops) (wl : String → Option WatchlistEntry)
    (s : RadiusState) (now : ℕ) (ac : Aircraft) (id : String)
    (h : milLatch s id = true) :
    milLatch (processRadiusAlerts ops wl s now ac).2 id = true := by
  refine processRadiusAlerts_elim ops wl s now ac
    (fun p => milLatch p.2 id = true) ?_ ?_ ?_ ?_ <;>
    intros <;>
    simp only [milLatch_update] <;>
    split <;>
    simp_all [milLatch_getD]

/-- A watchlist-kind alert for `id` is only emitted with the latch of `id`
down, and leaves it up. -/
lemma watch_alert_spec (ops : Ops) (wl : String → Option WatchlistEntry)
    (s : RadiusState) (now : ℕ) (ac : Aircraft) (r : AlertRecord)
    (hr : (processRadiusAlerts ops wl s now ac).1 = some r)
    (hk : r.kind = AlertType.watchlist) :
    r.ac = ac ∧ watchLatch s ac.hex = false ∧
      watchLatch (processRadiusAlerts ops wl s now ac).2 ac.hex = true := by
  revert hr
  refine processRadiusAlerts_elim ops wl s now ac
    (fun p => p.1 = some r →
      r.ac = ac ∧ watchLatch s ac.hex = false ∧
        watchLatch p.2 ac.hex = true) ?_ ?_ ?_ ?_
  · intro entry _
    cases hl : watchLatch s ac.hex
    · intro hr
      simp only [if_neg (by simp [hl] : ¬ watchLatch s ac.hex = true)] at hr
      cases hr
      exact ⟨rfl, rfl, by simp [watchLatch_update]⟩
    · intro hr
      simp [hl] at hr
  · intro _ _ hr
    split at hr <;> cases hr <;> simp_all
  · intro _ _ _ hr
    split at hr <;> cases hr <;> simp_all
  · intro _ _ _ hr
    split at hr <;> cases hr <;> simp_all

/-- A military-kind alert for `id` is only emitted with the latch of `id`
down, and leaves it up. -/
lemma mil_alert_spec (ops : Ops) (wl : String → Option WatchlistEntry)
    (s : RadiusState) (now : ℕ) (ac : Aircraft) (r : AlertRecord)
    (hr : (processRadiusAlerts ops wl s now ac).1 = some r)
    (hk : r.kind = AlertType.military) :
    r.ac = ac ∧ milLatch s ac.hex = false ∧
      milLatch (processRadiusAlerts ops wl s now ac).2 ac.hex = true := by
  revert hr
  refine processRadiusAlerts_elim ops wl s now ac
    (fun p => p.1 = some r →
      r.ac = ac ∧ milLatch s ac.hex = false ∧
        milLatch p.2 ac.hex = true) ?_ ?_ ?_ ?_
  · intro entry _ hr
    split at hr <;> cases hr <;> simp_all
  · intro _ _ hr
    split at hr <;> cases hr <;> simp_all
  · intro _ _ _
    cases hl : milLatch s ac.hex
    · intro hr
      simp only [if_neg (by simp [hl] : ¬ milLatch s ac.hex = true)] at hr
      cases hr
      exact ⟨rfl, rfl, by simp [milLatch_update]⟩
    · intro hr
      simp [hl] at hr
  · intro _ _ _ hr
    split at hr <;> cases hr <;> simp_all

/-- Recognizer for a watchlist-kind alert of identifier `id`. -/
def isWatchAlertFor (id : String) (r : AlertRecord) : Bool :=
  decide (r.kind = AlertType.watchlist ∧ r.ac.hex = id)

/-- Recognizer for a military-kind alert of identifier `id`. -/
def isMilAlertFor (id : String) (r : AlertRecord) : Bool :=
  decide (r.kind = AlertType.military ∧ r.ac.hex = id)

/-- Along any evaluation sequence without a reap, the number of watchlist
alerts for a fixed identifier is at most one, and zero when the latch
starts out set. -/
lemma runRadius_watch_count (ops : Ops) (id : String) :
    ∀ (ins : List PollInput) (s : RadiusState),
      (watchLatch s id = true →
        (runRadius ops s ins).countP (isWatchAlertFor id) = 0) ∧
      (runRadius ops s ins).countP (isWatchAlertFor id) ≤ 1 := by
  intro ins
  induction ins with
  | nil => intro s; simp [runRadius]
  | cons i rest ih =>
    intro s
    simp only [runRadius, List.countP_append]
    cases hr : (processRadiusAlerts ops i.wl s i.now i.ac).1 with
    | none =>
      simp only [hr, Option.toList_none, List.countP_nil, Nat.zero_add]
      refine ⟨fun h => (ih _).1 (watchLatch_mono ops i.wl s i.now i.ac id h),
        (ih _).2⟩
    | some r =>
      simp only [hr, Option.toList_some, List.countP_singleton]
      cases hf : isWatchAlertFor id r
      · simp only [Bool.false_eq_true, if_false, Nat.zero_add]
        refine ⟨fun h => (ih _).1 (watchLatch_mono ops i.wl s i.now i.ac id h),
          (ih _).2⟩
      · have hf' := of_decide_eq_true hf
        obtain ⟨hac, hlow, hup⟩ :=
          watch_alert_spec ops i.wl s i.now i.ac r hr hf'.1
        have hid : i.ac.hex = id := by rw [← hf'.2, hac]
        have hrest : (runRadius ops (processRadiusAlerts ops i.wl s i.now
            i.ac).2 rest).countP (isWatchAlertFor id) = 0 :=
          (ih _).1 (hid ▸ hup)
        rw [hrest]
        refine ⟨fun h => absurd hlow (by rw [hid, h]; simp), by simp⟩

/-- Along any evaluation sequence without a reap, the number of military
alerts for a fixed identifier is at most one, and zero when the latch
starts out set. -/
lemma runRadius_mil_count (ops : Ops) (id : String) :
    ∀ (ins : List PollInput) (s : RadiusState),
      (milLatch s id = true →
        (runRadius ops s ins).countP (isMilAlertFor id) = 0) ∧
      (runRadius ops s ins).countP (isMilAlertFor id) ≤ 1 := by
  intro ins
  induction ins with
  | nil => intro s; simp [runRadius]
  | cons i rest ih =>
    intro s
    simp only [runRadius, List.countP_append]
    cases hr : (processRadiusAlerts ops i.wl s i.now i.ac).1 with
    | none =>
      simp only [hr, Option.toList_none, List.countP_nil, Nat.zero_add]
      refine ⟨fun h => (ih _).1 (milLatch_mono ops i.wl s i.now i.ac id h),
        (ih _).2⟩
    | some r =>
      simp only [hr, Option.toList_some, List.countP_singleton]
      cases hf : isMilAlertFor id r
      · simp only [Bool.false_eq_true, if_false, Nat.zero_add]
        refine ⟨fun h => (ih _).1 (milLatch_mono ops i.wl s i.now i.ac id h),
          (ih _).2⟩
      · have hf' := of_decide_eq_true hf
        obtain ⟨hac, hlow, hup⟩ :=
          mil_alert_spec ops i.wl s i.now i.ac r hr hf'.1
        have hid : i.ac.hex = id := by rw [← hf'.2, hac]
        have hrest : (runRadius ops (processRadiusAlerts ops i.wl s i.now
            i.ac).2 rest).countP (isMilAlertFor id) = 0 :=
          (ih _).1 (hid ▸ hup)
        rw [hrest]
        refine ⟨fun h => absurd hlow (by rw [hid, h]; simp), by simp⟩

/-- Reading a map write back at the written key. -/
lemma updateState_self (s : RadiusState) (hex : String)
    (st : RadiusAircraftState) : updateState s hex st hex = some st := by
  simp [updateState]

/-- Reading a map write back at any other key. -/
lemma updateState_other (s : RadiusState) (hex : String)
    (st : RadiusAircraftState) (h' : String) (hne : h' ≠ hex) :
    updateState s hex st h' = s h' := by
  simp [updateState, hne]

/-- `squawkChanged` spelled out: no state recorded, or a differing code. -/
lemma squawkChanged_iff (s : RadiusState) (hex sq : String) :
    squawkChanged s hex sq = true ↔
      (s hex = none ∨ ∃ st, s hex = some st ∧ st.lastSquawk ≠ sq) := by
  unfold squawkChanged
  cases hs : s hex with
  | none => simp
  | some st => simp [bne_iff_ne]

/-- `inBand` spelled out: a resolved fix, within the radius, and a parsed
altitude in the band. -/
lemma inBand_iff (ops : Ops) (ac : Aircraft) :
    inBand ops ac = true ↔
      ((getActualCoords ops ac).2.2 = true ∧
       ops.haversine apiLat apiLng (getActualCoords ops ac).1
         (getActualCoords ops ac).2.1 ≤ proximityRadiusNM ∧
       ∃ a, ops.parse (formatAltitudeString ops ac.altBaro) = some a ∧
         0 < a ∧ a ≤ proximityAltitudeFT) := by
  unfold inBand
  cases hp : ops.parse (formatAltitudeString ops ac.altBaro) with
  | none => simp
  | some a =>
    simp only [Bool.and_eq_true, decide_eq_true_eq, Option.some.injEq]
    constructor
    · rintro ⟨⟨hfix, hd⟩, hband⟩
      exact ⟨hfix, hd, a, rfl, hband.1, hband.2⟩
    · rintro ⟨hfix, hd, a', ha', h0, h2⟩
      cases ha'
      exact ⟨⟨hfix, hd⟩, h0, h2⟩

/-- Every branch of the evaluator writes back state for the snapshot's
identifier carrying the current code and timestamp. -/
lemma processRadiusAlerts_store (ops : Ops)
    (wl : String → Option WatchlistEntry) (s : RadiusState) (now : ℕ)
    (ac : Aircraft) :
    ∃ st, (processRadiusAlerts ops wl s now ac).2 = updateState s ac.hex st ∧
      st.lastSquawk = ac.squawk ∧ st.lastSeen = now := by
  refine processRadiusAlerts_elim ops wl s now ac
    (fun p => ∃ st, p.2 = updateState s ac.hex st ∧
      st.lastSquawk = ac.squawk ∧ st.lastSeen = now) ?_ ?_ ?_ ?_ <;>
    intros <;> exact ⟨_, rfl, rfl, rfl⟩

/-- C1: for a snapshot whose identifier is on the watchlist, `evaluate`
emits a watchlist alert iff the `watchlistAlerted` latch is not set (a
missing AlertState counting as not set), and sets the latch on fire; for a
snapshot with the special/military flag that reaches trigger 3, it emits
the special alert iff the `milAlerted` latch is not set, setting it on
fire; `evaluate` never clears either latch for any identifier; hence over
any evaluation sequence without a reap, each of the two triggers fires at
most once per identifier. -/
theorem claim_C1 :
    (∀ (ops : Ops) (wl : String → Option WatchlistEntry) (s : RadiusState)
        (now : ℕ) (ac : Aircraft) (entry : WatchlistEntry),
      wl ac.hex = some entry →
        ((processRadiusAlerts ops wl s now ac).1 =
            some ⟨.watchlist, ac, some entry⟩ ↔
          watchLatch s ac.hex = false) ∧
        (watchLatch s ac.hex = false →
          watchLatch (processRadiusAlerts ops wl s now ac).2 ac.hex =
            true)) ∧
    (∀ (ops : Ops) (wl : String → Option WatchlistEntry) (s : RadiusState)
        (now : ℕ) (ac : Aircraft),
      wl ac.hex = none → isEmergencySquawk ac.squawk = false →
      ac.mil = true →
        ((processRadiusAlerts ops wl s now ac).1 =
            some ⟨.military, ac, none⟩ ↔ milLatch s ac.hex = false) ∧
        (milLatch s ac.hex = false →
          milLatch (processRadiusAlerts ops wl s now ac).2 ac.hex = true)) ∧
    (∀ (ops : Ops) (wl : String → Option WatchlistEntry) (s : RadiusState)
        (now : ℕ) (ac : Aircraft) (id : String),
      (watchLatch s id = true →
        watchLatch (processRadiusAlerts ops wl s now ac).2 id = true) ∧
      (milLatch s id = true →
        milLatch (processRadiusAlerts ops wl s now ac).2 id = true)) ∧
    (∀ (ops : Ops) (s : RadiusState) (ins : List PollInput) (id : String),
      (runRadius ops s ins).countP (isWatchAlertFor id) ≤ 1 ∧
      (runRadius ops s ins).countP (isMilAlertFor id) ≤ 1) := by
  refine ⟨?_, ?_, ?_, ?_⟩
  · intro ops wl s now ac entry hw
    rw [processRadiusAlerts_watchlist ops wl s now ac entry hw]
    constructor
    · cases hl : watchLatch s ac.hex <;> simp
    · intro _
      simp [watchLatch_update]
  · intro ops wl s now ac h1 h2 h3
    rw [processRadiusAlerts_military ops wl s now ac h1 h2 h3]
    constructor
    · cases hl : milLatch s ac.hex <;> simp
    · intro _
      simp [milLatch_update]
  · intro ops wl s now ac id
    exact ⟨watchLatch_mono ops wl s now ac id, milLatch_mono ops wl s now ac id⟩
  · intro ops s ins id
    exact ⟨(runRadius_watch_count ops id ins s).2,
      (runRadius_mil_count ops id ins s).2⟩

/-- Concrete inputs reused by the claim witnesses below. -/
def entryW : WatchlistEntry :=
  { icao := "A1B2C3", registration := "N123AB", note := "vip", planeType := "B738" }

/-- A watchlist containing exactly `entryW`. -/
def wlW : String → Option WatchlistEntry :=
  fun h => if h = "A1B2C3" then some entryW else none

/-- Concrete float primitives for the witnesses: `parse` accepts only the
string `"1000"`, the distance is the constant `1`. -/
def opsW : Ops :=
  { parse := fun t => if t = "1000" then some 1000 else none
    fmt0 := fun _ => ""
    haversine := fun _ _ _ _ => 1 }

/-- The empty state store. -/
def emptyState : RadiusState := fun _ => none

/-- A watchlisted snapshot. -/
def acWatch : Aircraft := { hex := "A1B2C3", squawk := "1200" }

/-- A military snapshot off the watchlist. -/
def acMil : Aircraft := { hex := "M1", squawk := "1200", mil := true }

/-- An emergency-squawk snapshot off the watchlist. -/
def acEmerg : Aircraft := { hex := "D1", squawk := "7700" }

/-- A low, close snapshot off the watchlist with a parseable altitude. -/
def acProx : Aircraft :=
  { hex := "P1", squawk := "1200", altBaro := .str "1000",
    lat := .num 1, lon := .num 1 }

theorem claim_C1_witness :
    (processRadiusAlerts opsW wlW emptyState 5 acWatch).1 =
      some ⟨.watchlist, acWatch, some entryW⟩ ∧
    watchLatch (processRadiusAlerts opsW wlW emptyState 5 acWatch).2
      "A1B2C3" = true ∧
    (processRadiusAlerts opsW wlW emptyState 5 acMil).1 =
      some ⟨.military, acMil, none⟩ ∧
    milLatch (processRadiusAlerts opsW wlW emptyState 5 acMil).2 "M1" =
      true ∧
    (runRadius opsW emptyState
        [⟨wlW, 5, acWatch⟩, ⟨wlW, 6, acWatch⟩]).countP
      (isWatchAlertFor "A1B2C3") ≤ 1 := by
  refine ⟨(claim_C1.1 opsW wlW emptyState 5 acWatch entryW rfl).1.mpr rfl,
    (claim_C1.1 opsW wlW emptyState 5 acWatch entryW rfl).2 rfl,
    (claim_C1.2.1 opsW wlW emptyState 5 acMil rfl rfl rfl).1.mpr rfl,
    (claim_C1.2.1 opsW wlW emptyState 5 acMil rfl rfl rfl).2 rfl,
    (claim_C1.2.2.2 opsW emptyState
      [⟨wlW, 5, acWatch⟩, ⟨wlW, 6, acWatch⟩] "A1B2C3").1⟩

/-- C4: on a watchlisted identifier no emergency, special/military, or
proximity alert is ever emitted — any emitted alert is of watchlist kind —
and when the watchlist latch is already set nothing is emitted at all. -/
theorem claim_C4 :
    ∀ (ops : Ops) (wl : String → Option WatchlistEntry) (s : RadiusState)
      (now : ℕ) (ac : Aircraft) (entry : WatchlistEntry),
      wl ac.hex = some entry →
        (∀ r, (processRadiusAlerts ops wl s now ac).1 = some r →
          r.kind = AlertType.watchlist) ∧
        (watchLatch s ac.hex = true →
          (processRadiusAlerts ops wl s now ac).1 = none) := by
  intro ops wl s now ac entry hw
  rw [processRadiusAlerts_watchlist ops wl s now ac entry hw]
  constructor
  · intro r hr
    cases hl : watchLatch s ac.hex <;> simp [hl] at hr <;> simp [← hr]
  · intro hl
    simp [hl]

theorem claim_C4_witness :
    (∀ r, (processRadiusAlerts opsW wlW emptyState 5 acWatch).1 = some r →
      r.kind = AlertType.watchlist) ∧
    (processRadiusAlerts opsW wlW
      (updateState emptyState "A1B2C3" { watchlistAlerted := true })
      5 acWatch).1 = none :=
  ⟨(claim_C4 opsW wlW emptyState 5 acWatch entryW rfl).1,
   (claim_C4 opsW wlW
      (updateState emptyState "A1B2C3" { watchlistAlerted := true })
      5 acWatch entryW rfl).2 rfl⟩

/-- C5: the coordinate resolver uses the primary pair when both parsed
components are non-zero; treats it as absent when either component is
exactly zero and falls back to the secondary "last known position" pair;
and reports no fix when that also has a zero component. -/
theorem claim_C5 :
    ∀ (ops : Ops) (ac : Aircraft),
      (parseFloat ops ac.lat ≠ 0 ∧ parseFloat ops ac.lon ≠ 0 →
        getActualCoords ops ac =
          (parseFloat ops ac.lat, parseFloat ops ac.lon, true)) ∧
      ((parseFloat ops ac.lat = 0 ∨ parseFloat ops ac.lon = 0) →
        parseFloat ops ac.lastPosLat ≠ 0 ∧ parseFloat ops ac.lastPosLon ≠ 0 →
        getActualCoords ops ac =
          (parseFloat ops ac.lastPosLat, parseFloat ops ac.lastPosLon,
           true)) ∧
      ((parseFloat ops ac.lat = 0 ∨ parseFloat ops ac.lon = 0) →
        (parseFloat ops ac.lastPosLat = 0 ∨ parseFloat ops ac.lastPosLon = 0) →
        getActualCoords ops ac = (0, 0, false)) := by
  intro ops ac
  refine ⟨?_, ?_, ?_⟩ <;> intros h1 <;>
    simp only [getActualCoords] <;> split_ifs with hp hq <;>
    first
      | rfl
      | (exfalso; tauto)
      | (intro h2; exfalso; tauto)
      | (intro h2; rfl)

theorem claim_C5_witness :
    getActualCoords opsW
        { hex := "X", lat := .num 0, lon := .num 0,
          lastPosLat := .num 3, lastPosLon := .num 4 } =
      (3, 4, true) ∧
    getActualCoords opsW
        { hex := "X", lat := .num 0, lon := .num 0,
          lastPosLat := .num 0, lastPosLon := .num 0 } =
      (0, 0, false) :=
  ⟨(claim_C5 opsW _).2.1 (Or.inl rfl) (by norm_num [parseFloat]),
   (claim_C5 opsW _).2.2 (Or.inl rfl) (Or.inl rfl)⟩

/-- C9: every evaluation, on every control path, writes back the snapshot's
AlertState with the current code and timestamp, touches no other
identifier's state, and the sticky latches are only ever set (never
cleared) by it. -/
theorem claim_C9 :
    ∀ (ops : Ops) (wl : String → Option WatchlistEntry) (s : RadiusState)
      (now : ℕ) (ac : Aircraft),
      (∃ st, (processRadiusAlerts ops wl s now ac).2 ac.hex = some st ∧
        st.lastSquawk = ac.squawk ∧ st.lastSeen = now) ∧
      (∀ h, h ≠ ac.hex → (processRadiusAlerts ops wl s now ac).2 h = s h) ∧
      (watchLatch s ac.hex = true →
        watchLatch (processRadiusAlerts ops wl s now ac).2 ac.hex = true) ∧
      (milLatch s ac.hex = true →
        milLatch (processRadiusAlerts ops wl s now ac).2 ac.hex = true) := by
  intro ops wl s now ac
  obtain ⟨st, hst, hsq, hsee⟩ := processRadiusAlerts_store ops wl s now ac
  refine ⟨⟨st, ?_, hsq, hsee⟩, ?_, watchLatch_mono ops wl s now ac ac.hex,
    milLatch_mono ops wl s now ac ac.hex⟩
  · rw [hst, updateState_self]
  · intro h hne
    rw [hst, updateState_other s ac.hex st h hne]

theorem claim_C9_witness :
    (∃ st, (processRadiusAlerts opsW wlW emptyState 7 acEmerg).2 "D1" =
      some st ∧ st.lastSquawk = "7700" ∧ st.lastSeen = 7) ∧
    (processRadiusAlerts opsW wlW emptyState 7 acEmerg).2 "OTHER" = none :=
  ⟨(claim_C9 opsW wlW emptyState 7 acEmerg).1,
   by
    have := (claim_C9 opsW wlW emptyState 7 acEmerg).2.1 "OTHER" (by decide)
    rw [this]
    rfl⟩

/-- C2: for a snapshot off the watchlist, an emergency alert is emitted
iff the code is one of the reserved codes 7700/7600/7500 and either no
AlertState exists or the recorded last-observed code differs; repeating
the same reserved code next cycle does not re-alert, while switching to a
different reserved code does. -/
theorem claim_C2 :
    ∀ (ops : Ops) (wl : String → Option WatchlistEntry) (s : RadiusState)
      (now : ℕ) (ac : Aircraft),
      wl ac.hex = none →
        ((processRadiusAlerts ops wl s now ac).1 =
            some ⟨.emergency, ac, none⟩ ↔
          (isEmergencySquawk ac.squawk = true ∧
            (s ac.hex = none ∨
              ∃ st, s ac.hex = some st ∧ st.lastSquawk ≠ ac.squawk))) ∧
        (isEmergencySquawk ac.squawk = true → ∀ now₂,
          (processRadiusAlerts ops wl
            (processRadiusAlerts ops wl s now ac).2 now₂ ac).1 = none) ∧
        (∀ sq₂, isEmergencySquawk sq₂ = true → sq₂ ≠ ac.squawk → ∀ now₂,
          (processRadiusAlerts ops wl
              (processRadiusAlerts ops wl s now ac).2 now₂
              { ac with squawk := sq₂ }).1 =
            some ⟨.emergency, { ac with squawk := sq₂ }, none⟩) := by
  intro ops wl s now ac hw
  obtain ⟨st, hst, hsq, -⟩ := processRadiusAlerts_store ops wl s now ac
  refine ⟨?_, ?_, ?_⟩
  · cases he : isEmergencySquawk ac.squawk with
    | true =>
      rw [processRadiusAlerts_emergency ops wl s now ac hw he]
      rw [← squawkChanged_iff]
      cases hc : squawkChanged s ac.hex ac.squawk <;> simp
    | false =>
      simp only [Bool.false_eq_true, false_and, iff_false]
      refine processRadiusAlerts_elim ops wl s now ac
        (fun p => ¬ p.1 = some ⟨.emergency, ac, none⟩) ?_ ?_ ?_ ?_
      · intro entry hentry
        rw [hw] at hentry
        cases hentry
      · intro _ he'
        rw [he] at he'
        cases he'
      · intro _ _ _
        split <;> simp
      · intro _ _ _
        split <;> simp
  · intro he now₂
    rw [processRadiusAlerts_emergency ops wl _ now₂ ac hw he]
    have : squawkChanged (processRadiusAlerts ops wl s now ac).2 ac.hex
        ac.squawk = false := by
      unfold squawkChanged
      rw [hst, updateState_self]
      simp [hsq]
    simp [this]
  · intro sq₂ he₂ hne now₂
    have hw' : wl ({ ac with squawk := sq₂ } : Aircraft).hex = none := hw
    rw [processRadiusAlerts_emergency ops wl _ now₂
      { ac with squawk := sq₂ } hw' he₂]
    have : squawkChanged (processRadiusAlerts ops wl s now ac).2
        ({ ac with squawk := sq₂ } : Aircraft).hex
        ({ ac with squawk := sq₂ } : Aircraft).squawk = true := by
      unfold squawkChanged
      show (match (processRadiusAlerts ops wl s now ac).2 ac.hex with
        | some st => st.lastSquawk != sq₂
        | none => true) = true
      rw [hst, updateState_self]
      simp [hsq]
      exact fun h => hne h.symm
    simp [this]

theorem claim_C2_witness :
    (processRadiusAlerts opsW wlW emptyState 5 acEmerg).1 =
      some ⟨.emergency, acEmerg, none⟩ ∧
    (processRadiusAlerts opsW wlW
      (processRadiusAlerts opsW wlW emptyState 5 acEmerg).2 6 acEmerg).1 =
      none ∧
    (processRadiusAlerts opsW wlW
        (processRadiusAlerts opsW wlW emptyState 5 acEmerg).2 6
        { acEmerg with squawk := "7600" }).1 =
      some ⟨.emergency, { acEmerg with squawk := "7600" }, none⟩ :=
  ⟨(claim_C2 opsW wlW emptyState 5 acEmerg rfl).1.mpr ⟨rfl, Or.inl rfl⟩,
   (claim_C2 opsW wlW emptyState 5 acEmerg rfl).2.1 rfl 6,
   (claim_C2 opsW wlW emptyState 5 acEmerg rfl).2.2 "7600" rfl (by decide) 6⟩

/-- C3: for a snapshot with a resolved position reaching the proximity
trigger, a proximity alert is emitted iff the distance to the home point
is within the radius, the altitude parses into `(0, 2000]`, and the
`proximityAlerted` latch is down (set on fire); on exit from the radius or
a failed altitude test the latch is cleared unconditionally; hence a fresh
entry into the band after any exit alerts again, with no cooldown. -/
theorem claim_C3 :
    ∀ (ops : Ops) (wl : String → Option WatchlistEntry) (s : RadiusState)
      (now : ℕ) (ac : Aircraft),
      wl ac.hex = none → isEmergencySquawk ac.squawk = false →
      ac.mil = false → (getActualCoords ops ac).2.2 = true →
        ((processRadiusAlerts ops wl s now ac).1 =
            some ⟨.proximity, ac, none⟩ ↔
          (ops.haversine apiLat apiLng (getActualCoords ops ac).1
              (getActualCoords ops ac).2.1 ≤ proximityRadiusNM ∧
           (∃ a, ops.parse (formatAltitudeString ops ac.altBaro) = some a ∧
              0 < a ∧ a ≤ proximityAltitudeFT) ∧
           proxLatch s ac.hex = false)) ∧
        ((processRadiusAlerts ops wl s now ac).1 =
            some ⟨.proximity, ac, none⟩ →
          proxLatch (processRadiusAlerts ops wl s now ac).2 ac.hex =
            true) ∧
        ((¬ ops.haversine apiLat apiLng (getActualCoords ops ac).1
              (getActualCoords ops ac).2.1 ≤ proximityRadiusNM ∨
          ¬ (∃ a, ops.parse (formatAltitudeString ops ac.altBaro) = some a ∧
              0 < a ∧ a ≤ proximityAltitudeFT)) →
          proxLatch (processRadiusAlerts ops wl s now ac).2 ac.hex =
            false) ∧
        (∀ (now₂ : ℕ) (ac₂ : Aircraft), ac₂.hex = ac.hex →
          isEmergencySquawk ac₂.squawk = false → ac₂.mil = false →
          inBand ops ac = false → inBand ops ac₂ = true →
          (processRadiusAlerts ops wl
              (processRadiusAlerts ops wl s now ac).2 now₂ ac₂).1 =
            some ⟨.proximity, ac₂, none⟩) := by
  intro ops wl s now ac hw he hm hfix
  have hib := inBand_iff ops ac
  rw [processRadiusAlerts_proximity ops wl s now ac hw he hm]
  refine ⟨?_, ?_, ?_, ?_⟩
  · cases hb : inBand ops ac with
    | false =>
      constructor
      · intro hcontra
        simp at hcontra
      · rintro ⟨hd, ha, -⟩
        rw [hib.mpr ⟨hfix, hd, ha⟩] at hb
        cases hb
    | true =>
      obtain ⟨-, hd, ha⟩ := hib.mp hb
      cases hl : proxLatch s ac.hex
      · exact iff_of_true (by simp) ⟨hd, ha, rfl⟩
      · constructor
        · intro hcontra
          simp at hcontra
        · rintro ⟨-, -, hcontra⟩
          cases hcontra
  · intro hfire
    cases hb : inBand ops ac with
    | false =>
      rw [hb] at hfire
      simp at hfire
    | true =>
      rw [proxLatch_update]
      simp
  · intro hbad
    have hb : inBand ops ac = false := by
      cases hb : inBand ops ac with
      | false => rfl
      | true =>
        obtain ⟨-, hd, ha⟩ := hib.mp hb
        rcases hbad with h | h <;> exact absurd (by assumption) h
    rw [proxLatch_update]
    simp [hb]
  · intro now₂ ac₂ hhex he₂ hm₂ hb₁ hb₂
    have hw₂ : wl ac₂.hex = none := by rw [hhex]; exact hw
    rw [processRadiusAlerts_proximity ops wl _ now₂ ac₂ hw₂ he₂ hm₂]
    have hlatch : proxLatch
        (updateState s ac.hex
          { (s ac.hex).getD {} with
              proximityAlerted := inBand ops ac, lastSquawk := ac.squawk,
              lastSeen := now }) ac₂.hex = false := by
      rw [hhex, proxLatch_update]
      simp [hb₁]
    rw [hb₂, hlatch]
    simp

theorem claim_C3_witness :
    getActualCoords opsW acProx = (1, 1, true) ∧
    (processRadiusAlerts opsW wlW emptyState 5 acProx).1 =
      some ⟨.proximity, acProx, none⟩ ∧
    proxLatch (processRadiusAlerts opsW wlW emptyState 5 acProx).2 "P1" =
      true := by
  have h := claim_C3 opsW wlW emptyState 5 acProx rfl rfl rfl rfl
  refine ⟨rfl, ?_, ?_⟩
  · exact h.1.mpr ⟨by norm_num [opsW, apiLat, apiLng, proximityRadiusNM],
      ⟨1000, rfl, by norm_num, by norm_num [proximityAltitudeFT]⟩, rfl⟩
  · exact h.2.1 (h.1.mpr ⟨by norm_num [opsW, apiLat, apiLng, proximityRadiusNM],
      ⟨1000, rfl, by norm_num, by norm_num [proximityAltitudeFT]⟩, rfl⟩)

/-- A flat-shape ("military") enrichment payload with a non-empty owner. -/
def respC6 : AdsbDbApiResponse :=
  { registration_flat := "R1", type_flat := "T1", owner_flat := "Owner One" }

/-- C6 counterexample: the claim's normalization (airline falls back to the
owner field whenever the operator flag is empty, in either path) differs
from the code on a flat-shape payload — the code leaves `airline` empty in
the flat path. -/
theorem claim_C6_counterexample :
    getAircraftDetails "a1" respC6 ≠ getAircraftDetailsClaimC6 "a1" respC6 := by
  decide

/-- C6 (amended): normalization prefers the nested shape exactly when its
registration is non-empty (flat fields ignored; airline is the operator
flag when non-empty, else the nested owner); uses the flat shape's
registration/type/owner only when the nested registration is empty, with
`airline` left EMPTY in that path (not the owner); a payload matching
neither shape yields a record with every detail field empty. -/
theorem claim_C6 :
    ∀ (hex : String) (resp : AdsbDbApiResponse),
      (resp.aircraft.registration ≠ "" →
        getAircraftDetails hex resp =
          { hex := hex
            registration := resp.aircraft.registration
            aircraftType := resp.aircraft.type
            owner := resp.aircraft.owner
            airline :=
              if resp.aircraft.airlineFlag ≠ "" then resp.aircraft.airlineFlag
              else resp.aircraft.owner
            note := ""
            thumbnailURL := resp.aircraft.thumbnailURL
            fullImageURL := resp.aircraft.fullImageURL }) ∧
      (resp.aircraft.registration = "" → resp.registration_flat ≠ "" →
        getAircraftDetails hex resp =
          { hex := hex
            registration := resp.registration_flat
            aircraftType := resp.type_flat
            owner := resp.owner_flat
            airline := ""
            note := ""
            thumbnailURL := ""
            fullImageURL := "" }) ∧
      (resp.aircraft.registration = "" → resp.registration_flat = "" →
        getAircraftDetails hex resp = { hex := hex }) := by
  intro hex resp
  refine ⟨?_, ?_, ?_⟩
  · intro h
    simp [getAircraftDetails, h]
  · intro h1 h2
    simp [getAircraftDetails, h1, h2]
  · intro h1 h2
    simp [getAircraftDetails, h1, h2]

theorem claim_C6_witness :
    getAircraftDetails "a1" respC6 =
      { hex := "a1", registration := "R1", aircraftType := "T1",
        owner := "Owner One" } :=
  (claim_C6 "a1" respC6).2.1 rfl (by decide)

/-- Looking a key up in the watchlist fold: the last well-formed row whose
identifier column matches wins; with no such row the accumulator answers. -/
lemma loadWatchlist_lookup (rows : List (List String)) :
    ∀ (m : String → Option WatchlistEntry) (key : String),
      rows.foldl (fun m row =>
        if 6 < row.length then insertWatchlist m (watchlistRow row)
        else m) m key =
      match (rows.filter fun r =>
          decide (6 < r.length ∧ r.getD 0 "" = key)).getLast? with
      | some r => some (watchlistRow r)
      | none => m key := by
  induction rows with
  | nil => intro m key; rfl
  | cons r rest ih =>
    intro m key
    rw [List.foldl_cons]
    by_cases h6 : 6 < r.length
    · by_cases hk : r.getD 0 "" = key
      · rw [if_pos h6, List.filter_cons_of_pos
          (by simp only [decide_eq_true_eq]; exact ⟨h6, hk⟩), ih]
        cases hf : (rest.filter fun r =>
            decide (6 < r.length ∧ r.getD 0 "" = key)) with
        | nil =>
          show insertWatchlist m (watchlistRow r) key = some (watchlistRow r)
          unfold insertWatchlist
          rw [if_pos]
          exact hk.symm
        | cons x xs =>
          rw [List.getLast?_cons_cons]
          obtain ⟨y, hy⟩ : ∃ y, (x :: xs).getLast? = some y :=
            Option.isSome_iff_exists.mp
              (List.getLast?_isSome.mpr (by simp))
          rw [hy]
      · rw [if_pos h6, List.filter_cons_of_neg
          (by simp only [decide_eq_true_eq, not_and]; exact fun _ => hk), ih]
        cases (rest.filter fun r =>
            decide (6 < r.length ∧ r.getD 0 "" = key)).getLast? with
        | none =>
          show insertWatchlist m (watchlistRow r) key = m key
          unfold insertWatchlist
          rw [if_neg]
          exact fun h => hk h.symm
        | some x => rfl
    · rw [if_neg h6, List.filter_cons_of_neg (by simp [h6]), ih]

/-- C7: the watchlist refresh skips the header row, silently drops every
non-header row with at most 6 columns while still loading the rest, and
keys each retained row by column 0 with registration from column 1, type
from column 4 and note from column 6 (last matching row wins). -/
theorem claim_C7 :
    ∀ (header : List String) (rows : List (List String)) (key : String),
      loadWatchlistFromCSV (header :: rows) key =
        ((rows.filter fun r =>
            decide (6 < r.length ∧ r.getD 0 "" = key)).getLast?).map
          (fun r => { icao := r.getD 0 "", registration := r.getD 1 "",
                      planeType := r.getD 4 "", note := r.getD 6 "" }) ∧
      loadWatchlistFromCSV (header :: rows) key =
        loadWatchlistFromCSV
          (header :: rows.filter fun r => decide (6 < r.length)) key := by
  intro header rows key
  have hchar : ∀ rows' : List (List String),
      loadWatchlistFromCSV (header :: rows') key =
        ((rows'.filter fun r =>
            decide (6 < r.length ∧ r.getD 0 "" = key)).getLast?).map
          (fun r => { icao := r.getD 0 "", registration := r.getD 1 "",
                      planeType := r.getD 4 "", note := r.getD 6 "" }) := by
    intro rows'
    unfold loadWatchlistFromCSV
    simp only [List.drop_succ_cons, List.drop_zero]
    rw [loadWatchlist_lookup rows' (fun _ => none) key]
    cases (rows'.filter fun r =>
        decide (6 < r.length ∧ r.getD 0 "" = key)).getLast? <;> rfl
  refine ⟨hchar rows, ?_⟩
  rw [hchar rows, hchar (rows.filter fun r => decide (6 < r.length))]
  rw [List.filter_filter]
  congr 2
  apply List.filter_congr
  intro r _
  by_cases h6 : 6 < r.length <;> by_cases hk : r.getD 0 "" = key <;>
    simp [h6, hk]

theorem claim_C7_witness :
    loadWatchlistFromCSV
        [["icao", "reg"], ["AAA111", "N1", "x", "y", "C130", "z", "note1"],
         ["BBB", "short"],
         ["AAA111", "N2", "x", "y", "C17", "z", "note2"]] "AAA111" =
      some { icao := "AAA111", registration := "N2", planeType := "C17",
             note := "note2" } := by
  rw [(claim_C7 ["icao", "reg"]
    [["AAA111", "N1", "x", "y", "C130", "z", "note1"], ["BBB", "short"],
     ["AAA111", "N2", "x", "y", "C17", "z", "note2"]] "AAA111").1]
  rfl

/-- C8: the reaper removes any AlertState whose (non-zero, i.e. actually
recorded — the evaluator only ever writes the current cycle time) last-seen
timestamp is older than `now` minus the 30-minute TTL, after which a new
sighting of that identifier finds no latches and every sticky trigger can
fire again; the final conjunct shows the evaluator indeed stamps every
write with the current cycle time, so recorded timestamps are never the
zero sentinel when cycles happen at positive times. -/
theorem claim_C8 :
    ∀ (s : RadiusState) (now : ℕ) (id : String) (st : RadiusAircraftState),
      s id = some st → st.lastSeen ≠ 0 → st.lastSeen < now - stateTTL →
        cleanupRadiusState now s id = none ∧
        watchLatch (cleanupRadiusState now s) id = false ∧
        milLatch (cleanupRadiusState now s) id = false ∧
        proxLatch (cleanupRadiusState now s) id = false ∧
        (∀ (ops : Ops) (wl : String → Option WatchlistEntry) (now₂ : ℕ)
            (ac : Aircraft) (entry : WatchlistEntry),
          ac.hex = id → wl ac.hex = some entry →
            (processRadiusAlerts ops wl (cleanupRadiusState now s) now₂
                ac).1 = some ⟨.watchlist, ac, some entry⟩) ∧
        (∀ (ops : Ops) (wl : String → Option WatchlistEntry) (now₂ : ℕ)
            (ac : Aircraft),
          ac.hex = id → wl ac.hex = none →
          isEmergencySquawk ac.squawk = false → ac.mil = true →
            (processRadiusAlerts ops wl (cleanupRadiusState now s) now₂
                ac).1 = some ⟨.military, ac, none⟩) ∧
        (∀ (ops : Ops) (wl : String → Option WatchlistEntry) (now₂ : ℕ)
            (ac : Aircraft),
          ac.hex = id → wl ac.hex = none →
          isEmergencySquawk ac.squawk = false → ac.mil = false →
          inBand ops ac = true →
            (processRadiusAlerts ops wl (cleanupRadiusState now s) now₂
                ac).1 = some ⟨.proximity, ac, none⟩) ∧
        (∀ (ops : Ops) (wl : String → Option WatchlistEntry)
            (s' : RadiusState) (now' : ℕ) (ac : Aircraft),
          0 < now' → ∀ st',
            (processRadiusAlerts ops wl s' now' ac).2 ac.hex = some st' →
              st'.lastSeen ≠ 0) := by
  intro s now id st hs hnz hold
  have hgone : cleanupRadiusState now s id = none := by
    unfold cleanupRadiusState
    rw [hs]
    simp [hnz, hold]
  refine ⟨hgone, ?_, ?_, ?_, ?_, ?_, ?_, ?_⟩
  · unfold watchLatch
    rw [hgone]
  · unfold milLatch
    rw [hgone]
  · unfold proxLatch
    rw [hgone]
  · intro ops wl now₂ ac entry hhex hw
    rw [processRadiusAlerts_watchlist ops wl _ now₂ ac entry hw]
    have : watchLatch (cleanupRadiusState now s) ac.hex = false := by
      unfold watchLatch
      rw [hhex, hgone]
    simp [this]
  · intro ops wl now₂ ac hhex hw he hm
    rw [processRadiusAlerts_military ops wl _ now₂ ac hw he hm]
    have : milLatch (cleanupRadiusState now s) ac.hex = false := by
      unfold milLatch
      rw [hhex, hgone]
    simp [this]
  · intro ops wl now₂ ac hhex hw he hm hband
    rw [processRadiusAlerts_proximity ops wl _ now₂ ac hw he hm]
    have : proxLatch (cleanupRadiusState now s) ac.hex = false := by
      unfold proxLatch
      rw [hhex, hgone]
    rw [hband, this]
    simp
  · intro ops wl s' now' ac hpos st' hst'
    obtain ⟨stw, hstw, -, hsee⟩ := processRadiusAlerts_store ops wl s' now' ac
    rw [hstw, updateState_self] at hst'
    cases hst'
    rw [hsee]
    exact Nat.pos_iff_ne_zero.mp hpos

/-- A watchlist containing exactly the identifier `G1`. -/
def wlG : String → Option WatchlistEntry :=
  fun h => if h = "G1" then some entryW else none

/-- A watchlisted snapshot with identifier `G1`. -/
def acG : Aircraft := { hex := "G1", squawk := "1200" }

/-- A stale state store: `G1` was last seen at minute 1. -/
def staleState : RadiusState :=
  updateState emptyState "G1"
    { lastSquawk := "1200", watchlistAlerted := true, milAlerted := true,
      proximityAlerted := true, lastSeen := 1 }

theorem claim_C8_witness :
    cleanupRadiusState 100 staleState "G1" = none ∧
    (processRadiusAlerts opsW wlG (cleanupRadiusState 100 staleState) 101
        acG).1 = some ⟨.watchlist, acG, some entryW⟩ := by
  have h := claim_C8 staleState 100 "G1"
    { lastSquawk := "1200", watchlistAlerted := true, milAlerted := true,
      proximityAlerted := true, lastSeen := 1 } rfl (by decide) (by decide)
  exact ⟨h.1, h.2.2.2.2.1 opsW wlG 101 acG entryW rfl rfl⟩

/-- C10: the reaper never removes an entry whose last-seen is the zero
time; it replaces it with a fresh zero state stamped `now`, clearing all
latches; and after a reap at a positive time every remaining entry has a
non-zero last-seen. -/
theorem claim_C10 :
    ∀ (s : RadiusState) (now : ℕ) (id : String) (st : RadiusAircraftState),
      0 < now → s id = some st → st.lastSeen = 0 →
        cleanupRadiusState now s id =
          some { lastSquawk := "", milAlerted := false,
                 watchlistAlerted := false, proximityAlerted := false,
                 lastSeen := now } ∧
        (∀ (id' : String) (st' : RadiusAircraftState),
          cleanupRadiusState now s id' = some st' → st'.lastSeen ≠ 0) := by
  intro s now id st hpos hs hz
  constructor
  · unfold cleanupRadiusState
    rw [hs]
    simp [hz]
  · intro id' st' hst'
    unfold cleanupRadiusState at hst'
    split at hst'
    · cases hst'
    · rename_i state heq
      by_cases hz' : state.lastSeen = 0
      · rw [if_pos hz'] at hst'
        cases hst'
        exact Nat.pos_iff_ne_zero.mp hpos
      · rw [if_neg hz'] at hst'
        by_cases hb : state.lastSeen < now - stateTTL
        · rw [if_pos hb] at hst'
          cases hst'
        · rw [if_neg hb] at hst'
          cases hst'
          exact hz'

/-- A store holding one zero-timestamp entry with latches set. -/
def zeroSeenState : RadiusState :=
  updateState emptyState "Z1"
    { watchlistAlerted := true, milAlerted := true, proximityAlerted := true }

theorem claim_C10_witness :
    cleanupRadiusState 50 zeroSeenState "Z1" =
      some { lastSquawk := "", milAlerted := false,
             watchlistAlerted := false, proximityAlerted := false,
             lastSeen := 50 } ∧
    ∀ (st' : RadiusAircraftState),
      cleanupRadiusState 50 zeroSeenState "Z1" = some st' →
        st'.lastSeen ≠ 0 := by
  have h := claim_C10 zeroSeenState 50 "Z1"
    { watchlistAlerted := true, milAlerted := true, proximityAlerted := true }
    (by decide) rfl rfl
  exact ⟨h.1, fun st' => h.2 "Z1" st'⟩

end FlightIngestor
